import Mathlib

/-!
Shallow embedding of `src/crawler.py` (class `LinksSpider`, a Scrapy spider).

The spider's own code — `start_requests`, `parse`, `NO_CALLBACK`,
`handle_error`, `save_to_json`, `save_scraped_page`, `save_error_to_json` —
is translated directly.  The external fetch engine (Scrapy) is modelled
only where a claim needs it, and each such definition carries a
`Modelled from the spec:` doc comment.
-/

namespace Crawler

/-- The success callback attached to a request: `self.parse` for seed and
internal-link requests, `self.NO_CALLBACK` for external-link requests. -/
inductive Callback where
  | parse
  | NO_CALLBACK
deriving DecidableEq, Repr

/-- A `scrapy.Request` as built by this spider: a URL, the success callback,
and the `meta={"origin": ...}` string.  Every request the spider creates sets
`errback=self.handle_error`, so the errback is not a field. -/
structure Request where
  url : String
  callback : Callback
  origin : String
deriving DecidableEq, Repr

/-- A link extracted from a page (Scrapy `Link`): only its URL matters here. -/
structure Link where
  url : String
deriving DecidableEq, Repr

/-- A response delivered to a success callback.  `request` is
`response.request` (the request object that produced the response, carrying
its `meta`); `url` is `response.url`, the URL actually served, which can
differ from `request.url`; `is_text` models `isinstance(response, TextResponse)`;
`candidates` models the set of links the default `LinkExtractor` finds in the
body, before any domain filtering. -/
structure Response where
  request : Request
  url : String
  status : Nat
  is_text : Bool
  candidates : List Link
deriving DecidableEq, Repr

/-- The failure categories `handle_error` discriminates with `failure.check`,
plus `other` for any failure class not matched by the chain of checks. -/
inductive FailureKind where
  | httpError (responseStatus : Nat)
  | dnsLookupError
  | tcpTimedOut
  | timeoutError
  | other (desc : String)
deriving DecidableEq, Repr

/-- A Twisted `Failure` as seen by `handle_error`: `failure.request` and the
failure's class. -/
structure Failure where
  request : Request
  kind : FailureKind
deriving DecidableEq, Repr

/-- The class-level configuration of `LinksSpider`: `start_urls`,
`search_domains`, and the hardcoded string prefix of line 71
(`if not link_url.startswith(...)`).  In the published source all three are
placeholder literals (`[""]`, `[""]`, `""`); they are parameters here so the
theorems cover every instantiation, `sourceConfig` below being the literal
one. -/
structure SpiderConfig where
  start_urls : List String
  search_domains : List String
  excluded_pattern : String
deriving DecidableEq, Repr

/-- The literal placeholder values of the published source. -/
def sourceConfig : SpiderConfig :=
  { start_urls := [""], search_domains := [""], excluded_pattern := "" }

/-- One observable action of a callback: appending a visit record
(`save_scraped_page url`), appending an error record
(`save_error_to_json link status origin`), or yielding a new
`scrapy.Request`.  The `yield None` of the failed branch is not an action:
Scrapy ignores `None` items. -/
inductive Effect where
  | visit (url : String)
  | err (link status origin : String)
  | req (r : Request)
deriving DecidableEq, Repr

/-- The characters after the first `"://"` marker of a URL, if any. -/
def after_scheme_chars : List Char → Option (List Char)
  | ':' :: '/' :: '/' :: rest => some rest
  | _ :: rest => after_scheme_chars rest
  | [] => none

/-- Modelled from the spec: the path component of a URL, as
`urlparse(url).path` computes it for absolute http(s) URLs — everything
after the scheme marker and the host, up to the query or fragment. -/
def urlpath (url : String) : String :=
  let rest := (after_scheme_chars url.data).getD url.data
  String.mk ((rest.dropWhile (fun c => c != '/')).takeWhile
    (fun c => c != '?' && c != '#'))

/-- Modelled from the spec: the host (netloc) of a URL, lowercased —
`parse_url(url).netloc.lower()`; empty when the URL has no scheme marker,
hence no resolvable host. -/
def url_host (url : String) : String :=
  match after_scheme_chars url.data with
  | some rest =>
      String.mk ((rest.takeWhile (fun c => c != '/' && c != '?' && c != '#')).map
        Char.toLower)
  | none => ""

/-- Python's `s.startswith(pat)`: `pat` is a character-wise prefix of `s`. -/
def starts_with (s pat : String) : Bool :=
  pat.data.isPrefixOf s.data

/-- Modelled from the spec: the classifier's domain test (§4.1), as Scrapy's
`url_is_from_any_domain` used by `LinkExtractor(allow_domains=...)` /
`(deny_domains=...)`: the URL's host matches a domain by exact match or by
suffix match on a "." boundary, case-insensitively; a URL with no host
matches no domain. -/
def url_is_from_any_domain (url : String) (domains : List String) : Bool :=
  let host := (url_host url).data
  !host.isEmpty &&
    domains.any (fun d =>
      host == d.data.map Char.toLower
        || ('.' :: d.data.map Char.toLower).isSuffixOf host)

/-- Modelled from the spec: `LinkExtractor(allow_domains=domains).extract_links(response)` —
the default extractor's candidate links of the response, kept iff their URL
is from one of `domains`. -/
def extract_links_allow (domains : List String) (response : Response) : List Link :=
  response.candidates.filter (fun l => url_is_from_any_domain l.url domains)

/-- Modelled from the spec: `LinkExtractor(deny_domains=domains).extract_links(response)` —
the same candidate links, kept iff their URL is NOT from any of `domains`. -/
def extract_links_deny (domains : List String) (response : Response) : List Link :=
  response.candidates.filter (fun l => !url_is_from_any_domain l.url domains)

/-- `LinksSpider.start_requests` (lines 23–34): one request per start URL,
callback `parse`, `meta={"origin": f"start_{url}"}`. -/
def start_requests (cfg : SpiderConfig) : List Request :=
  cfg.start_urls.map (fun url =>
    { url := url, callback := Callback.parse, origin := "start_" ++ url })

/-- `LinksSpider.parse` (lines 36–77), as the ordered list of its effects.
Line for line: `request = response.request`; `origin = urlparse(request.url).path`;
`save_scraped_page(request.url)` unconditionally; then either the failed
branch (non-text response and status ≠ 200: one error record under the
request's own meta origin, then stop) or the else branch (external links
each yield a `NO_CALLBACK` request; internal links yield a `parse` request
unless their URL starts with the hardcoded pattern). -/
def parse (cfg : SpiderConfig) (response : Response) : List Effect :=
  let request := response.request
  let origin := urlpath request.url
  Effect.visit request.url ::
    (if !response.is_text && response.status != 200 then
      [Effect.err request.url ("status " ++ toString response.status) request.origin]
    else
      (extract_links_deny cfg.search_domains response).map (fun link =>
        Effect.req { url := link.url, callback := Callback.NO_CALLBACK, origin := origin })
      ++
      ((extract_links_allow cfg.search_domains response).filter (fun link =>
          !starts_with link.url cfg.excluded_pattern)).map (fun link =>
        Effect.req { url := link.url, callback := Callback.parse, origin := origin }))

/-- `LinksSpider.NO_CALLBACK` (lines 79–83): does nothing with the response. -/
def NO_CALLBACK (_response : Response) : List Effect := []

/-- `LinksSpider.handle_error` (lines 85–114): `request = failure.request`,
`origin = request.meta["origin"]`; an `if/elif/elif` chain over the failure
class writes one error record for `HttpError`, `DNSLookupError`, and
`TCPTimedOutError`/`TimeoutError`; any other failure class falls through the
chain with no write. -/
def handle_error (failure : Failure) : List Effect :=
  let request := failure.request
  let origin := request.origin
  match failure.kind with
  | FailureKind.httpError code =>
      [Effect.err request.url ("error " ++ toString code) origin]
  | FailureKind.dnsLookupError =>
      [Effect.err request.url "error DNSLookupError" origin]
  | FailureKind.tcpTimedOut =>
      [Effect.err request.url "error TimeoutError" origin]
  | FailureKind.timeoutError =>
      [Effect.err request.url "error TimeoutError" origin]
  | FailureKind.other _ => []

/-! ## Record sink (`save_to_json` and its two callers) -/

/-- Hexadecimal digit character, as Python's `json` module emits in
`\uXXXX` escapes. -/
def hexDigit (n : Nat) : Char :=
  match n with
  | 0 => '0' | 1 => '1' | 2 => '2' | 3 => '3' | 4 => '4'
  | 5 => '5' | 6 => '6' | 7 => '7' | 8 => '8' | 9 => '9'
  | 10 => 'a' | 11 => 'b' | 12 => 'c' | 13 => 'd' | 14 => 'e' | 15 => 'f'
  | _ => '0'

/-- Four hex digits of a code point. -/
def hex4 (n : Nat) : List Char :=
  [hexDigit (n / 4096 % 16), hexDigit (n / 256 % 16), hexDigit (n / 16 % 16), hexDigit (n % 16)]

/-- Modelled from the spec: how `json.dump` (defaults: `ensure_ascii=True`)
renders one character inside a JSON string: the short escapes for quote,
backslash, newline, carriage return, tab, backspace and formfeed; `\uXXXX`
for other control and all non-ASCII characters (code points above 0xFFFF,
which Python renders as a surrogate pair, are rendered as one escape here —
the claims depend only on no raw newline surviving); the character itself
otherwise. -/
def json_escape_char (c : Char) : List Char :=
  if c = '"' then ['\\', '"']
  else if c = '\\' then ['\\', '\\']
  else if c = '\n' then ['\\', 'n']
  else if c = '\r' then ['\\', 'r']
  else if c = '\t' then ['\\', 't']
  else if c.toNat = 8 then ['\\', 'b']
  else if c.toNat = 12 then ['\\', 'f']
  else if c.toNat < 0x20 || 0x7e < c.toNat then '\\' :: 'u' :: hex4 c.toNat
  else [c]

/-- A JSON string literal: quote, escaped characters, quote. -/
def json_escape_chars (s : List Char) : List Char :=
  '"' :: s.flatMap json_escape_char ++ ['"']

/-- One `"key": "value"` member (default separator `": "`). -/
def json_field_chars (kv : String × String) : List Char :=
  json_escape_chars kv.1.data ++ ':' :: ' ' :: json_escape_chars kv.2.data

/-- The members of an object joined by the default item separator `", "`. -/
def json_fields_chars : List (String × String) → List Char
  | [] => []
  | kv :: rest => json_field_chars kv ++ rest.flatMap (fun kv2 => ',' :: ' ' :: json_field_chars kv2)

/-- `json.dumps` of a flat object with string values, default separators. -/
def json_dump_chars (fields : List (String × String)) : List Char :=
  '{' :: json_fields_chars fields ++ ['}']

/-- Modelled from the spec: `json.dump(data, f)` output as a string. -/
def json_dump (fields : List (String × String)) : String :=
  String.mk (json_dump_chars fields)

/-- Python's `origin.replace("/", "__")`: for a one-character pattern,
`str.replace` substitutes every occurrence, character by character. -/
def replace_slashes_chars : List Char → List Char
  | [] => []
  | c :: rest => (if c = '/' then ['_', '_'] else [c]) ++ replace_slashes_chars rest

/-- `s.replace("/", "__")` on strings. -/
def replace_slashes (s : String) : String :=
  String.mk (replace_slashes_chars s.data)

/-- Modelled from the spec: posix `os.path.join(a, b)` for one relative or
absolute component `b`: `b` itself when it starts with a slash, otherwise
`a`, a slash, `b`. -/
def os_path_join (a b : String) : String :=
  if b.data.head? = some '/' then b else a ++ "/" ++ b

/-- One append-only write: which file, and the appended bytes. -/
structure FileAppend where
  filepath : String
  content : String
deriving DecidableEq, Repr

/-- `LinksSpider.save_to_json` (lines 116–122): open `filepath` for append,
`json.dump(data, f)`, then `f.write('\n')` — one call appends the record's
JSON serialization followed by a newline. -/
def save_to_json (data : List (String × String)) (filepath : String) : FileAppend :=
  { filepath := filepath, content := json_dump data ++ "\n" }

/-- `LinksSpider.save_scraped_page` (lines 124–131): the visit record
`{"url": page_url}` appended to `reports/scraped_pages.json`. -/
def save_scraped_page (page_url : String) : FileAppend :=
  save_to_json [("url", page_url)] (os_path_join "reports" "scraped_pages.json")

/-- `LinksSpider.save_error_to_json` (lines 133–141): the error record
`{"link": url, "status": status}` appended to the file named from `origin`
with slashes replaced by `__` and suffix `.json`, under `reports`. -/
def save_error_to_json (url status origin : String) : FileAppend :=
  save_to_json [("link", url), ("status", status)]
    (os_path_join "reports" (replace_slashes origin ++ ".json"))

/-- The file writes an effect performs: a visit effect is
`save_scraped_page`, an error effect is `save_error_to_json`, and yielding
a request writes nothing. -/
def effect_writes : Effect → List FileAppend
  | Effect.visit u => [save_scraped_page u]
  | Effect.err l s o => [save_error_to_json l s o]
  | Effect.req _ => []

/-! ## Run-level semantics

The spider's callbacks are driven by the external fetch engine.  The engine
side — scheduling with the duplicate filter, and completing in-flight
requests in any order — is modelled here; the callbacks themselves are the
translated functions above. -/

/-- The outcome the engine produces for an in-flight request: a response
(served URL, status, text-ness, extractable links) handed to the success
callback, or a failure handed to `handle_error`. -/
inductive Outcome where
  | success (servedUrl : String) (status : Nat) (is_text : Bool) (candidates : List Link)
  | failure (kind : FailureKind)
deriving DecidableEq, Repr

/-- The engine state: `seen` is the scheduler's duplicate-filter set (by
request URL), `pending` the accepted in-flight requests, `issued` every
request ever dispatched to fetching in order, `log` every visit and error
record appended in order. -/
structure CrawlState where
  seen : List String
  pending : List Request
  issued : List Request
  log : List Effect
deriving Repr

/-- Modelled from the spec: the Frontier (§4.2) / Scrapy's scheduler
duplicate filter, which every request yielded by this spider passes
(none sets `dont_filter`): check-and-insert — a request whose URL was
already seen is dropped; otherwise its URL is recorded and the request is
dispatched. -/
def schedule (st : CrawlState) (r : Request) : CrawlState :=
  if r.url ∈ st.seen then st
  else { st with
          seen := r.url :: st.seen,
          pending := st.pending ++ [r],
          issued := st.issued ++ [r] }

/-- Deliver an outcome to a request's callbacks: a response goes to the
request's success callback (`parse` or `NO_CALLBACK`), a failure to
`handle_error`; the response's `request` field is the request itself,
carrying its `meta`. -/
def deliver (cfg : SpiderConfig) (r : Request) (out : Outcome) : List Effect :=
  match out with
  | Outcome.success servedUrl status is_text candidates =>
      match r.callback with
      | Callback.parse =>
          parse cfg { request := r, url := servedUrl, status := status,
                      is_text := is_text, candidates := candidates }
      | Callback.NO_CALLBACK =>
          NO_CALLBACK { request := r, url := servedUrl, status := status,
                        is_text := is_text, candidates := candidates }
  | Outcome.failure kind => handle_error { request := r, kind := kind }

/-- Interpret one effect of a callback: a yielded request goes to the
scheduler, a visit or error record is appended to the log. -/
def applyEffect (st : CrawlState) (e : Effect) : CrawlState :=
  match e with
  | Effect.req r => schedule st r
  | _ => { st with log := st.log ++ [e] }

/-- One engine step: pick the pending request at index `ev.1` (no ordering
guarantee between completions), remove it from flight, deliver outcome
`ev.2` to its callback, and interpret the callback's effects in order. -/
def step (cfg : SpiderConfig) (st : CrawlState) (ev : Nat × Outcome) : CrawlState :=
  match st.pending.get? ev.1 with
  | none => st
  | some r =>
      (deliver cfg r ev.2).foldl applyEffect { st with pending := st.pending.eraseIdx ev.1 }

/-- The initial state: `start_requests` scheduled into the empty state. -/
def initState (cfg : SpiderConfig) : CrawlState :=
  (start_requests cfg).foldl schedule
    { seen := [], pending := [], issued := [], log := [] }

/-- A whole crawl run driven by an arbitrary event sequence. -/
def run (cfg : SpiderConfig) (events : List (Nat × Outcome)) : CrawlState :=
  events.foldl (step cfg) (initState cfg)

/-- `true` iff the effect's subject URL (the visited page, the failing link,
or the yielded request's target) is `u`. -/
def mentions (u : String) : Effect → Bool
  | Effect.visit v => v == u
  | Effect.err l _ _ => l == u
  | Effect.req r => r.url == u

/-- The failure classes `handle_error`'s `if/elif` chain recognizes. -/
def recognized : FailureKind → Bool
  | FailureKind.other _ => false
  | _ => true

/-! ## Shape lemmas for the callbacks -/

/-- Every effect of `handle_error` is one error record for the failing
request's own URL, filed under the request's `meta` origin. -/
theorem mem_handle_error_shape {f : Failure} {e : Effect} (he : e ∈ handle_error f) :
    ∃ s, e = Effect.err f.request.url s f.request.origin := by
  rcases f with ⟨req, kind⟩
  cases kind <;> simp [handle_error] at he <;> exact ⟨_, he⟩

/-- Every effect of `parse` is the unconditional visit record for the page's
requested URL, the failed-branch error record, or a request for a candidate
link: `NO_CALLBACK` when the link fails the domain test, `parse` when it
passes it and escapes the hardcoded exclusion; either way the request's
origin is the path of the page's requested URL. -/
theorem mem_parse_shape {cfg : SpiderConfig} {rsp : Response} {e : Effect}
    (he : e ∈ parse cfg rsp) :
    e = Effect.visit rsp.request.url
    ∨ (∃ s, e = Effect.err rsp.request.url s rsp.request.origin)
    ∨ (∃ l, l ∈ rsp.candidates ∧
        ((url_is_from_any_domain l.url cfg.search_domains = false
          ∧ e = Effect.req { url := l.url, callback := Callback.NO_CALLBACK,
                             origin := urlpath rsp.request.url })
        ∨ (url_is_from_any_domain l.url cfg.search_domains = true
          ∧ starts_with l.url cfg.excluded_pattern = false
          ∧ e = Effect.req { url := l.url, callback := Callback.parse,
                             origin := urlpath rsp.request.url }))) := by
  unfold parse extract_links_allow extract_links_deny at he
  rcases List.mem_cons.mp he with h | h
  · exact Or.inl h
  · split at h
    · exact Or.inr (Or.inl ⟨_, by simpa using h⟩)
    · rcases List.mem_append.mp h with h2 | h2
      · rcases List.mem_map.mp h2 with ⟨l, hl, rfl⟩
        rcases List.mem_filter.mp hl with ⟨hmem, hp⟩
        refine Or.inr (Or.inr ⟨l, hmem, Or.inl ⟨?_, rfl⟩⟩)
        simpa using hp
      · rcases List.mem_map.mp h2 with ⟨l, hl, rfl⟩
        rcases List.mem_filter.mp hl with ⟨hl2, hskip⟩
        rcases List.mem_filter.mp hl2 with ⟨hmem, hp⟩
        refine Or.inr (Or.inr ⟨l, hmem, Or.inr ⟨hp, ?_, rfl⟩⟩)
        simpa using hskip

/-! ## C1 -/

/-- C1: the claim says the Failed branch (non-text response, status ≠ 200)
appends no record to the visits log.  The code calls `save_scraped_page`
before the branch test, so a non-text 404 response delivered to `parse`
does append its URL to `reports/scraped_pages.json` (alongside the error
record): the visits log is written even for this failed fetch. -/
theorem C1_failed_branch_still_writes_visit :
    let rsp : Response :=
      { request := { url := "https://example.com/x", callback := Callback.parse,
                     origin := "start_https://example.com/x" },
        url := "https://example.com/x", status := 404, is_text := false,
        candidates := [] }
    rsp.is_text = false ∧ rsp.status ≠ 200
    ∧ Effect.visit "https://example.com/x" ∈ parse sourceConfig rsp
    ∧ effect_writes (Effect.visit "https://example.com/x")
        = [save_scraped_page "https://example.com/x"]
    ∧ (save_scraped_page "https://example.com/x").filepath
        = "reports/scraped_pages.json" := by
  refine ⟨rfl, by decide, ?_, rfl, by decide⟩
  exact List.mem_cons_self _ _

/-! ## C3 -/

/-- C3 counterexample: a failure whose class is none of `HttpError`,
`DNSLookupError`, `TCPTimedOutError`, `TimeoutError` (here a connection
refusal) falls through `handle_error`'s `if/elif` chain: no error record is
written, so not every failure delivered to the error callback is persisted. -/
theorem C3_counterexample_unrecognized_failure_dropped :
    handle_error
      { request := { url := "https://example.com/p", callback := Callback.parse,
                     origin := "/" },
        kind := FailureKind.other "ConnectionRefusedError" } = [] := rfl

/-- C3 (amended): a failure delivered to `handle_error` is persisted as
exactly one error record when its class is one of the three recognized
categories (HTTP error, DNS lookup failure, timeout), and is silently
dropped — zero records, and no crash since the chain simply falls through —
for every other class; every record written is for the failing request's
URL under its meta origin. -/
theorem C3_amended_only_recognized_failures_recorded (f : Failure) :
    ((handle_error f).flatMap effect_writes).length
        = (if recognized f.kind then 1 else 0)
    ∧ ∀ e ∈ handle_error f, ∃ s, e = Effect.err f.request.url s f.request.origin := by
  constructor
  · rcases f with ⟨req, kind⟩
    cases kind <;> rfl
  · intro e he
    exact mem_handle_error_shape he

/-! ## C5 -/

/-- C5: every recorded failure carries the normalized status string of its
category — `error {code}` for an HTTP error response in the error callback,
exactly `error DNSLookupError` for a DNS failure, exactly
`error TimeoutError` for a connection or request timeout — and a non-text,
non-200 response is recorded through the same error sink with status
`status {code}` while triggering no further link expansion (no request is
yielded). -/
theorem C5_normalized_status_strings (req : Request) (code : Nat)
    (cfg : SpiderConfig) (rsp : Response)
    (h1 : rsp.is_text = false) (h2 : rsp.status ≠ 200) :
    handle_error { request := req, kind := FailureKind.httpError code }
        = [Effect.err req.url ("error " ++ toString code) req.origin]
    ∧ handle_error { request := req, kind := FailureKind.dnsLookupError }
        = [Effect.err req.url "error DNSLookupError" req.origin]
    ∧ handle_error { request := req, kind := FailureKind.tcpTimedOut }
        = [Effect.err req.url "error TimeoutError" req.origin]
    ∧ handle_error { request := req, kind := FailureKind.timeoutError }
        = [Effect.err req.url "error TimeoutError" req.origin]
    ∧ parse cfg rsp
        = [Effect.visit rsp.request.url,
           Effect.err rsp.request.url ("status " ++ toString rsp.status)
             rsp.request.origin]
    ∧ effect_writes
          (Effect.err rsp.request.url ("status " ++ toString rsp.status)
            rsp.request.origin)
        = [save_error_to_json rsp.request.url ("status " ++ toString rsp.status)
            rsp.request.origin]
    ∧ ∀ r, Effect.req r ∉ parse cfg rsp := by
  have hp : parse cfg rsp
      = [Effect.visit rsp.request.url,
         Effect.err rsp.request.url ("status " ++ toString rsp.status)
           rsp.request.origin] := by
    simp [parse, h1, h2]
  refine ⟨rfl, rfl, rfl, rfl, hp, rfl, ?_⟩
  intro r hr
  rw [hp] at hr
  simp at hr

/-- C5 witness at a concrete request and a concrete non-text 500 response. -/
theorem C5_normalized_status_strings_witness :
    (({ request := { url := "https://example.com/img", callback := Callback.parse,
                     origin := "/" },
        url := "https://example.com/img", status := 500, is_text := false,
        candidates := [] } : Response).is_text = false)
    ∧ (({ request := { url := "https://example.com/img", callback := Callback.parse,
                       origin := "/" },
          url := "https://example.com/img", status := 500, is_text := false,
          candidates := [] } : Response).status ≠ 200)
    ∧ parse sourceConfig
        { request := { url := "https://example.com/img", callback := Callback.parse,
                       origin := "/" },
          url := "https://example.com/img", status := 500, is_text := false,
          candidates := [] }
        = [Effect.visit "https://example.com/img",
           Effect.err "https://example.com/img" "status 500" "/"] :=
  ⟨rfl, by decide,
    (C5_normalized_status_strings
      { url := "https://example.com/img", callback := Callback.parse, origin := "/" }
      404 sourceConfig
      { request := { url := "https://example.com/img", callback := Callback.parse,
                     origin := "/" },
        url := "https://example.com/img", status := 500, is_text := false,
        candidates := [] }
      rfl (by decide)).2.2.2.2.1⟩

/-! ## C9 -/

/-- C9: link classification is symmetric-complementary — a candidate link of
a response is in the `allow_domains` extraction iff it is not in the
`deny_domains` extraction with the same domain set, and it is always in one
of the two; a link whose URL has no resolvable host falls in the external
(deny) extraction. -/
theorem C9_classifier_partition (domains : List String) (rsp : Response)
    (l : Link) (hl : l ∈ rsp.candidates) :
    (l ∈ extract_links_allow domains rsp ↔ l ∉ extract_links_deny domains rsp)
    ∧ (l ∈ extract_links_allow domains rsp ∨ l ∈ extract_links_deny domains rsp)
    ∧ (url_host l.url = "" → l ∈ extract_links_deny domains rsp) := by
  unfold extract_links_allow extract_links_deny
  refine ⟨?_, ?_, ?_⟩
  · simp [List.mem_filter, hl]
  · by_cases hd : url_is_from_any_domain l.url domains
    · exact Or.inl (List.mem_filter.mpr ⟨hl, hd⟩)
    · exact Or.inr (List.mem_filter.mpr ⟨hl, by simpa using hd⟩)
  · intro hh
    refine List.mem_filter.mpr ⟨hl, ?_⟩
    simp [url_is_from_any_domain, hh]

/-- C9 witness: with domain set `["example.com"]`, the internal link
`https://example.com/a` is in the allow extraction and not the deny one. -/
theorem C9_classifier_partition_witness :
    ((⟨"https://example.com/a"⟩ : Link)
        ∈ ({ request := { url := "https://example.com/", callback := Callback.parse,
                          origin := "start_https://example.com/" },
             url := "https://example.com/", status := 200, is_text := true,
             candidates := [⟨"https://example.com/a"⟩] } : Response).candidates)
    ∧ ((⟨"https://example.com/a"⟩ : Link)
          ∈ extract_links_allow ["example.com"]
            { request := { url := "https://example.com/", callback := Callback.parse,
                           origin := "start_https://example.com/" },
              url := "https://example.com/", status := 200, is_text := true,
              candidates := [⟨"https://example.com/a"⟩] }
        ↔ (⟨"https://example.com/a"⟩ : Link)
          ∉ extract_links_deny ["example.com"]
            { request := { url := "https://example.com/", callback := Callback.parse,
                           origin := "start_https://example.com/" },
              url := "https://example.com/", status := 200, is_text := true,
              candidates := [⟨"https://example.com/a"⟩] }) :=
  ⟨by decide,
    (C9_classifier_partition ["example.com"]
      { request := { url := "https://example.com/", callback := Callback.parse,
                     origin := "start_https://example.com/" },
        url := "https://example.com/", status := 200, is_text := true,
        candidates := [⟨"https://example.com/a"⟩] }
      ⟨"https://example.com/a"⟩ (by decide)).1⟩

/-! ## C10 -/

/-- C10 (implicit): the visit record written by `parse` carries
`response.request.url` — the requested URL — not the served `response.url`:
the head effect is always the visit of the requested URL, no visit of the
served URL is emitted when the two differ, and the origin attached to every
yielded request is likewise the path of the requested URL. -/
theorem C10_visit_records_requested_url (cfg : SpiderConfig) (rsp : Response)
    (hne : rsp.request.url ≠ rsp.url) :
    (parse cfg rsp).head? = some (Effect.visit rsp.request.url)
    ∧ Effect.visit rsp.url ∉ parse cfg rsp
    ∧ ∀ r, Effect.req r ∈ parse cfg rsp → r.origin = urlpath rsp.request.url := by
  refine ⟨rfl, ?_, ?_⟩
  · intro h
    rcases mem_parse_shape h with h1 | ⟨s, h2⟩ | ⟨l, _, ⟨_, h3⟩ | ⟨_, _, h3⟩⟩
    · exact hne (by simpa using h1.symm)
    · simp at h2
    · simp at h3
    · simp at h3
  · intro r hr
    rcases mem_parse_shape hr with h1 | ⟨s, h2⟩ | ⟨l, _, ⟨_, h3⟩ | ⟨_, _, h3⟩⟩
    · simp at h1
    · simp at h2
    · rw [show r = { url := l.url, callback := Callback.NO_CALLBACK,
                     origin := urlpath rsp.request.url } by simpa using h3]
    · rw [show r = { url := l.url, callback := Callback.parse,
                     origin := urlpath rsp.request.url } by simpa using h3]

/-- C10 witness: a redirected fetch — requested `/old`, served `/new` —
records the requested URL in first position. -/
theorem C10_visit_records_requested_url_witness :
    ("https://example.com/old" ≠ "https://example.com/new")
    ∧ (parse sourceConfig
        { request := { url := "https://example.com/old", callback := Callback.parse,
                       origin := "/" },
          url := "https://example.com/new", status := 200, is_text := true,
          candidates := [] }).head? = some (Effect.visit "https://example.com/old")
    ∧ Effect.visit "https://example.com/new"
        ∉ parse sourceConfig
            { request := { url := "https://example.com/old", callback := Callback.parse,
                           origin := "/" },
              url := "https://example.com/new", status := 200, is_text := true,
              candidates := [] } :=
  ⟨by decide,
    (C10_visit_records_requested_url sourceConfig
      { request := { url := "https://example.com/old", callback := Callback.parse,
                     origin := "/" },
        url := "https://example.com/new", status := 200, is_text := true,
        candidates := [] } (by decide)).1,
    (C10_visit_records_requested_url sourceConfig
      { request := { url := "https://example.com/old", callback := Callback.parse,
                     origin := "/" },
        url := "https://example.com/new", status := 200, is_text := true,
        candidates := [] } (by decide)).2.1⟩

/-! ## C4 -/

/-- C4 counterexample: the claim says every error record's origin is the
path component of the page containing the failing link, for seed failures
too.  A failing seed request has no containing page: `start_requests` sets
its origin to `"start_" ++ url` — a string built from the failing link's
own URL — and the DNS-failure record for seed `https://bad.example/x` is
filed under `start_https://bad.example/x`, which is not the path component
of that (or any) URL. -/
theorem C4_counterexample_seed_origin :
    let cfg : SpiderConfig :=
      { start_urls := ["https://bad.example/x"], search_domains := ["bad.example"],
        excluded_pattern := "https://bad.example/bot" }
    let r : Request :=
      { url := "https://bad.example/x", callback := Callback.parse,
        origin := "start_https://bad.example/x" }
    start_requests cfg = [r]
    ∧ handle_error { request := r, kind := FailureKind.dnsLookupError }
        = [Effect.err "https://bad.example/x" "error DNSLookupError"
            "start_https://bad.example/x"]
    ∧ "start_https://bad.example/x" = "start_" ++ "https://bad.example/x"
    ∧ "start_https://bad.example/x" ≠ urlpath "https://bad.example/x"
    ∧ urlpath "https://bad.example/x" = "/x" := by
  exact ⟨rfl, rfl, rfl, by decide, by decide⟩

/-- C4 (amended): every request yielded by `parse` carries as origin the
path component of the requested URL of the page that contained the link —
independent of the link itself — and every error record is filed under the
failing request's stored origin; a seed request's stored origin, however,
is `"start_"` followed by the seed's own URL, not the path of a containing
page. -/
theorem C4_amended_origin_is_containing_page_path (cfg : SpiderConfig)
    (rsp : Response) (r : Request) (hr : Effect.req r ∈ parse cfg rsp)
    (f : Failure) (e : Effect) (he : e ∈ handle_error f)
    (s : Request) (hs : s ∈ start_requests cfg) :
    r.origin = urlpath rsp.request.url
    ∧ (∃ st, e = Effect.err f.request.url st f.request.origin)
    ∧ s.origin = "start_" ++ s.url := by
  refine ⟨?_, mem_handle_error_shape he, ?_⟩
  · rcases mem_parse_shape hr with h1 | ⟨st, h2⟩ | ⟨l, _, ⟨_, h3⟩ | ⟨_, _, h3⟩⟩
    · simp at h1
    · simp at h2
    · rw [show r = { url := l.url, callback := Callback.NO_CALLBACK,
                     origin := urlpath rsp.request.url } by simpa using h3]
    · rw [show r = { url := l.url, callback := Callback.parse,
                     origin := urlpath rsp.request.url } by simpa using h3]
  · rcases List.mem_map.mp hs with ⟨url, _, rfl⟩
    rfl

/-- C4 amended witness: a page `https://example.com/dir/page` containing
the internal link `https://example.com/other`; the yielded request's origin
is `/dir/page`, a failure's record is filed under the request's origin, and
the seed request for `https://example.com/` has origin
`start_https://example.com/`. -/
theorem C4_amended_origin_is_containing_page_path_witness :
    (Effect.req { url := "https://example.com/other", callback := Callback.parse,
                  origin := "/dir/page" }
        ∈ parse { start_urls := ["https://example.com/"],
                  search_domains := ["example.com"],
                  excluded_pattern := "https://example.com/bot" }
            { request := { url := "https://example.com/dir/page",
                           callback := Callback.parse, origin := "/" },
              url := "https://example.com/dir/page", status := 200, is_text := true,
              candidates := [⟨"https://example.com/other"⟩] })
    ∧ ({ url := "https://example.com/other", callback := Callback.parse,
         origin := "/dir/page" } : Request).origin
        = urlpath "https://example.com/dir/page"
    ∧ ({ url := "https://example.com/", callback := Callback.parse,
         origin := "start_https://example.com/" } : Request).origin
        = "start_" ++ "https://example.com/" :=
  ⟨by decide,
    (C4_amended_origin_is_containing_page_path
      { start_urls := ["https://example.com/"], search_domains := ["example.com"],
        excluded_pattern := "https://example.com/bot" }
      { request := { url := "https://example.com/dir/page",
                     callback := Callback.parse, origin := "/" },
        url := "https://example.com/dir/page", status := 200, is_text := true,
        candidates := [⟨"https://example.com/other"⟩] }
      { url := "https://example.com/other", callback := Callback.parse,
        origin := "/dir/page" }
      (by decide)
      { request := { url := "https://example.com/other", callback := Callback.parse,
                     origin := "/dir/page" },
        kind := FailureKind.timeoutError }
      (Effect.err "https://example.com/other" "error TimeoutError" "/dir/page")
      (by decide)
      { url := "https://example.com/", callback := Callback.parse,
        origin := "start_https://example.com/" }
      (by decide)).1,
    (C4_amended_origin_is_containing_page_path
      { start_urls := ["https://example.com/"], search_domains := ["example.com"],
        excluded_pattern := "https://example.com/bot" }
      { request := { url := "https://example.com/dir/page",
                     callback := Callback.parse, origin := "/" },
        url := "https://example.com/dir/page", status := 200, is_text := true,
        candidates := [⟨"https://example.com/other"⟩] }
      { url := "https://example.com/other", callback := Callback.parse,
        origin := "/dir/page" }
      (by decide)
      { request := { url := "https://example.com/other", callback := Callback.parse,
                     origin := "/dir/page" },
        kind := FailureKind.timeoutError }
      (Effect.err "https://example.com/other" "error TimeoutError" "/dir/page")
      (by decide)
      { url := "https://example.com/", callback := Callback.parse,
        origin := "start_https://example.com/" }
      (by decide)).2.2⟩

/-! ## C8: sink addressing and one-line writes -/

theorem hexDigit_ne_newline (n : Nat) : hexDigit n ≠ '\n' := by
  unfold hexDigit
  split <;> decide

theorem newline_not_mem_json_escape_char (c : Char) : '\n' ∉ json_escape_char c := by
  unfold json_escape_char
  split_ifs with h1 h2 h3 h4 h5 h6 h7 h8
  · decide
  · decide
  · decide
  · decide
  · decide
  · decide
  · decide
  · intro hmem
    simp only [hex4, List.mem_cons] at hmem
    rcases hmem with h | h | h | h | h | h | h
    · exact absurd h (by decide)
    · exact absurd h (by decide)
    · exact hexDigit_ne_newline _ h.symm
    · exact hexDigit_ne_newline _ h.symm
    · exact hexDigit_ne_newline _ h.symm
    · exact hexDigit_ne_newline _ h.symm
    · exact absurd h (List.not_mem_nil _)
  · intro hmem
    rcases List.mem_singleton.mp hmem with rfl
    exact h3 rfl

theorem newline_not_mem_json_escape_chars (s : List Char) :
    '\n' ∉ json_escape_chars s := by
  unfold json_escape_chars
  intro h
  rcases List.mem_cons.mp h with h | h
  · exact absurd h (by decide)
  rcases List.mem_append.mp h with h | h
  · rcases List.mem_flatMap.mp h with ⟨c, _, hc⟩
    exact newline_not_mem_json_escape_char c hc
  · exact absurd (List.mem_singleton.mp h) (by decide)

theorem newline_not_mem_json_field_chars (kv : String × String) :
    '\n' ∉ json_field_chars kv := by
  unfold json_field_chars
  intro h
  rcases List.mem_append.mp h with h | h
  · exact newline_not_mem_json_escape_chars _ h
  rcases List.mem_cons.mp h with h | h
  · exact absurd h (by decide)
  rcases List.mem_cons.mp h with h | h
  · exact absurd h (by decide)
  · exact newline_not_mem_json_escape_chars _ h

theorem newline_not_mem_json_fields_chars (fields : List (String × String)) :
    '\n' ∉ json_fields_chars fields := by
  induction fields with
  | nil => simp [json_fields_chars]
  | cons kv rest _ =>
      unfold json_fields_chars
      intro h
      rcases List.mem_append.mp h with h | h
      · exact newline_not_mem_json_field_chars kv h
      · rcases List.mem_flatMap.mp h with ⟨kv2, _, hc⟩
        rcases List.mem_cons.mp hc with h2 | h2
        · exact absurd h2 (by decide)
        rcases List.mem_cons.mp h2 with h3 | h3
        · exact absurd h3 (by decide)
        · exact newline_not_mem_json_field_chars kv2 h3

theorem newline_not_mem_json_dump_chars (fields : List (String × String)) :
    '\n' ∉ json_dump_chars fields := by
  unfold json_dump_chars
  intro h
  rcases List.mem_cons.mp h with h | h
  · exact absurd h (by decide)
  rcases List.mem_append.mp h with h | h
  · exact newline_not_mem_json_fields_chars fields h
  · exact absurd (List.mem_singleton.mp h) (by decide)

theorem slash_not_mem_replace_slashes_chars (l : List Char) :
    '/' ∉ replace_slashes_chars l := by
  induction l with
  | nil => simp [replace_slashes_chars]
  | cons c rest ih =>
      unfold replace_slashes_chars
      intro h
      rcases List.mem_append.mp h with h | h
      · split at h
        · exact absurd h (by decide)
        · rename_i hc
          exact hc (List.mem_singleton.mp h).symm
      · exact ih h

theorem errorfile_not_absolute (o : String) :
    (replace_slashes o ++ ".json").data.head? ≠ some '/' := by
  rw [String.data_append]
  cases h : (replace_slashes o).data with
  | nil => simp
  | cons c rest =>
      have hc : c ≠ '/' := by
        intro hc
        exact slash_not_mem_replace_slashes_chars o.data
          (by rw [show replace_slashes_chars o.data = c :: rest from h, hc];
              exact List.mem_cons_self _ _)
      simp [hc]

/-- C8: record sinks address their files deterministically — every visit
record goes to `reports/scraped_pages.json`; every error record with origin
`o` goes to `reports/<o with each slash replaced by __>.json`; each append
writes the record's JSON object followed by exactly one newline, and the
object's serialization contains no newline, so each call appends exactly one
self-contained line (each `/` of the origin becomes `__`, as the last
conjunct states for an arbitrary occurrence). -/
theorem C8_sink_deterministic_one_line_files (u s o : String) (xs ys : List Char) :
    (save_scraped_page u).filepath = "reports/scraped_pages.json"
    ∧ (save_error_to_json u s o).filepath
        = "reports/" ++ (replace_slashes o ++ ".json")
    ∧ (save_scraped_page u).content = json_dump [("url", u)] ++ "\n"
    ∧ (save_error_to_json u s o).content
        = json_dump [("link", u), ("status", s)] ++ "\n"
    ∧ '\n' ∉ (json_dump [("url", u)]).data
    ∧ '\n' ∉ (json_dump [("link", u), ("status", s)]).data
    ∧ replace_slashes_chars (xs ++ '/' :: ys)
        = replace_slashes_chars xs ++ '_' :: '_' :: replace_slashes_chars ys := by
  refine ⟨rfl, ?_, rfl, rfl,
    newline_not_mem_json_dump_chars _, newline_not_mem_json_dump_chars _, ?_⟩
  · show os_path_join "reports" (replace_slashes o ++ ".json") = _
    unfold os_path_join
    rw [if_neg (errorfile_not_absolute o)]
    rfl
  · induction xs with
    | nil => rfl
    | cons c rest ih =>
        simp only [List.cons_append, replace_slashes_chars, List.append_eq, ih,
          List.append_assoc]

/-! ## Run-level invariant machinery -/

/-- Invariant preservation through a `foldl`. -/
theorem foldl_invariant {α σ : Type} {Inv : σ → Prop} (f : σ → α → σ)
    (hf : ∀ s a, Inv s → Inv (f s a)) :
    ∀ (l : List α) (s : σ), Inv s → Inv (l.foldl f s)
  | [], _, hs => hs
  | a :: l, s, hs => foldl_invariant f hf l (f s a) (hf s a hs)

/-- Invariant preservation through interpreting a list of effects each of
which satisfies a side condition. -/
theorem foldl_applyEffect_invariant {Inv : CrawlState → Prop} {P : Effect → Prop}
    (hf : ∀ st e, P e → Inv st → Inv (applyEffect st e)) :
    ∀ (es : List Effect) (st : CrawlState), (∀ e ∈ es, P e) → Inv st →
      Inv (es.foldl applyEffect st)
  | [], _, _, hst => hst
  | e :: es, st, hes, hst =>
      foldl_applyEffect_invariant hf es (applyEffect st e)
        (fun x hx => hes x (List.mem_cons_of_mem _ hx))
        (hf st e (hes e (List.mem_cons_self _ _)) hst)

/-- Invariant preservation through scheduling a list of requests each of
which satisfies a side condition. -/
theorem foldl_schedule_invariant {Inv : CrawlState → Prop} {P : Request → Prop}
    (hf : ∀ st r, P r → Inv st → Inv (schedule st r)) :
    ∀ (rs : List Request) (st : CrawlState), (∀ r ∈ rs, P r) → Inv st →
      Inv (rs.foldl schedule st)
  | [], _, _, hst => hst
  | r :: rs, st, hrs, hst =>
      foldl_schedule_invariant hf rs (schedule st r)
        (fun x hx => hrs x (List.mem_cons_of_mem _ hx))
        (hf st r (hrs r (List.mem_cons_self _ _)) hst)

/-! ## C6: frontier at-most-once -/

/-- Frontier invariant: issued request URLs are pairwise distinct and all
recorded in the seen set. -/
def IssuedInv (st : CrawlState) : Prop :=
  (st.issued.map Request.url).Nodup ∧ ∀ u ∈ st.issued.map Request.url, u ∈ st.seen

theorem schedule_issuedInv (st : CrawlState) (r : Request) (h : IssuedInv st) :
    IssuedInv (schedule st r) := by
  obtain ⟨hnd, hsub⟩ := h
  unfold schedule
  split
  · exact ⟨hnd, hsub⟩
  · rename_i hns
    have hru : r.url ∉ st.issued.map Request.url := fun hmem => hns (hsub _ hmem)
    constructor
    · rw [List.map_append]
      simp [List.nodup_append, hnd, hru]
    · intro u hu
      rw [List.map_append] at hu
      rcases List.mem_append.mp hu with hu | hu
      · exact List.mem_cons_of_mem _ (hsub u hu)
      · simp only [List.map_cons, List.map_nil, List.mem_singleton] at hu
        subst hu
        exact List.mem_cons_self _ _

theorem applyEffect_issuedInv (st : CrawlState) (e : Effect) (h : IssuedInv st) :
    IssuedInv (applyEffect st e) := by
  cases e with
  | req r => exact schedule_issuedInv st r h
  | visit u => exact h
  | err l s o => exact h

theorem step_issuedInv (cfg : SpiderConfig) (st : CrawlState) (ev : Nat × Outcome)
    (h : IssuedInv st) : IssuedInv (step cfg st ev) := by
  unfold step
  split
  · exact h
  · exact foldl_invariant applyEffect (fun s e hs => applyEffect_issuedInv s e hs) _ _ h

/-- C6: the Frontier is at-most-once — over any whole crawl run (any event
interleaving), the requests actually issued to fetching have pairwise
distinct URLs: a URL discovered on several pages, or dispatched twice, is
fetched at most once, because `schedule` is a check-and-insert against the
seen set. -/
theorem C6_frontier_at_most_once (cfg : SpiderConfig)
    (events : List (Nat × Outcome)) :
    ((run cfg events).issued.map Request.url).Nodup := by
  have hinit : IssuedInv (initState cfg) := by
    unfold initState
    exact foldl_schedule_invariant (P := fun _ => True)
      (fun st r _ h => schedule_issuedInv st r h) _ _ (fun _ _ => trivial)
      ⟨List.nodup_nil, by simp⟩
  exact (foldl_invariant (step cfg) (fun s ev hs => step_issuedInv cfg s ev hs)
    events _ hinit).1

/-! ## C2: excluded-prefix links -/

/-- Exclusion invariant: no pending or issued request targets `u`, and no
logged record mentions `u`. -/
def AvoidInv (u : String) (st : CrawlState) : Prop :=
  (∀ r ∈ st.pending, r.url ≠ u) ∧ (∀ r ∈ st.issued, r.url ≠ u)
    ∧ ∀ e ∈ st.log, mentions u e = false

theorem schedule_avoidInv {u : String} {st : CrawlState} {r : Request}
    (hr : r.url ≠ u) (h : AvoidInv u st) : AvoidInv u (schedule st r) := by
  obtain ⟨hp, hi, hl⟩ := h
  unfold schedule
  split
  · exact ⟨hp, hi, hl⟩
  · refine ⟨?_, ?_, hl⟩
    · intro x hx
      rcases List.mem_append.mp hx with hx | hx
      · exact hp x hx
      · rcases List.mem_singleton.mp hx with rfl
        exact hr
    · intro x hx
      rcases List.mem_append.mp hx with hx | hx
      · exact hi x hx
      · rcases List.mem_singleton.mp hx with rfl
        exact hr

theorem applyEffect_avoidInv {u : String} {st : CrawlState} {e : Effect}
    (he : mentions u e = false) (h : AvoidInv u st) :
    AvoidInv u (applyEffect st e) := by
  obtain ⟨hp, hi, hl⟩ := h
  cases e with
  | req r =>
      refine schedule_avoidInv ?_ ⟨hp, hi, hl⟩
      simpa [mentions] using he
  | visit v =>
      refine ⟨hp, hi, ?_⟩
      intro x hx
      rcases List.mem_append.mp hx with hx | hx
      · exact hl x hx
      · rcases List.mem_singleton.mp hx with rfl
        exact he
  | err l s o =>
      refine ⟨hp, hi, ?_⟩
      intro x hx
      rcases List.mem_append.mp hx with hx | hx
      · exact hl x hx
      · rcases List.mem_singleton.mp hx with rfl
        exact he

theorem deliver_avoid {cfg : SpiderConfig} {u : String} {r : Request}
    (hru : r.url ≠ u) (hu1 : starts_with u cfg.excluded_pattern = true)
    (hu2 : url_is_from_any_domain u cfg.search_domains = true)
    (out : Outcome) : ∀ e ∈ deliver cfg r out, mentions u e = false := by
  intro e he
  cases out with
  | failure k =>
      rcases mem_handle_error_shape (f := { request := r, kind := k }) he with ⟨s, rfl⟩
      simpa [mentions] using hru
  | success servedUrl status is_text candidates =>
      cases hcb : r.callback with
      | NO_CALLBACK =>
          simp [deliver, hcb, NO_CALLBACK] at he
      | parse =>
          simp only [deliver, hcb] at he
          rcases mem_parse_shape he with h1 | ⟨s, h2⟩ | ⟨l, _, ⟨hdom, h3⟩ | ⟨hdom, hskip, h3⟩⟩
          · rw [h1]
            simpa [mentions] using hru
          · rw [h2]
            simpa [mentions] using hru
          · rw [h3]
            simp only [mentions, beq_eq_false_iff_ne, ne_eq]
            intro heq
            rw [heq, hu2] at hdom
            exact absurd hdom (by decide)
          · rw [h3]
            simp only [mentions, beq_eq_false_iff_ne, ne_eq]
            intro heq
            rw [heq, hu1] at hskip
            exact absurd hskip (by decide)

theorem step_avoidInv {cfg : SpiderConfig} {u : String}
    (hu1 : starts_with u cfg.excluded_pattern = true)
    (hu2 : url_is_from_any_domain u cfg.search_domains = true)
    (st : CrawlState) (ev : Nat × Outcome) (h : AvoidInv u st) :
    AvoidInv u (step cfg st ev) := by
  unfold step
  split
  · exact h
  · rename_i r hr
    have hrp : r ∈ st.pending := List.get?_mem hr
    have hst' : AvoidInv u { st with pending := st.pending.eraseIdx ev.1 } := by
      refine ⟨?_, h.2.1, h.2.2⟩
      intro x hx
      exact h.1 x ((List.eraseIdx_sublist _ _).subset hx)
    exact foldl_applyEffect_invariant
      (fun s e he hs => applyEffect_avoidInv he hs) _ _
      (deliver_avoid (h.1 r hrp) hu1 hu2 ev.2) hst'

theorem initState_avoidInv {cfg : SpiderConfig} {u : String}
    (hu3 : u ∉ cfg.start_urls) : AvoidInv u (initState cfg) := by
  unfold initState
  refine foldl_schedule_invariant (P := fun r => r.url ≠ u)
    (fun st r hp h => schedule_avoidInv hp h) _ _ ?_ ⟨by simp, by simp, by simp⟩
  intro r hrm
  rcases List.mem_map.mp hrm with ⟨url, hurl, rfl⟩
  exact fun hequ => hu3 (hequ ▸ hurl)

/-- C2: a new fetch request with the recursive `parse` callback is yielded
for an internal link of a successfully parsed page iff the link's URL does
not begin with the configured exclusion string; and a URL that does begin
with it (and classifies internal, and is not itself a seed) is never
issued as a request and is mentioned by no visit or error record anywhere
in any crawl run. -/
theorem C2_excluded_links_never_dispatched_or_recorded (cfg : SpiderConfig)
    (rsp : Response) (l : Link)
    (hl : l ∈ extract_links_allow cfg.search_domains rsp)
    (hsucc : rsp.is_text = true ∨ rsp.status = 200)
    (u : String) (hu1 : starts_with u cfg.excluded_pattern = true)
    (hu2 : url_is_from_any_domain u cfg.search_domains = true)
    (hu3 : u ∉ cfg.start_urls) (events : List (Nat × Outcome)) :
    (Effect.req { url := l.url, callback := Callback.parse,
                  origin := urlpath rsp.request.url } ∈ parse cfg rsp
       ↔ starts_with l.url cfg.excluded_pattern = false)
    ∧ (∀ r ∈ (run cfg events).issued, r.url ≠ u)
    ∧ ∀ e ∈ (run cfg events).log, mentions u e = false := by
  have hA : AvoidInv u (run cfg events) :=
    foldl_invariant (step cfg) (fun s ev hs => step_avoidInv hu1 hu2 s ev hs)
      events _ (initState_avoidInv hu3)
  refine ⟨⟨?_, ?_⟩, hA.2.1, hA.2.2⟩
  · intro h
    rcases mem_parse_shape h with h1 | ⟨s, h2⟩ | ⟨l2, _, ⟨_, h3⟩ | ⟨_, hskip, h3⟩⟩
    · simp at h1
    · simp at h2
    · simp at h3
    · have h4 := h3
      simp only [Effect.req.injEq, Request.mk.injEq, and_true] at h4
      rw [h4]
      exact hskip
  · intro hns
    have hcond : (!rsp.is_text && rsp.status != 200) = false := by
      rcases hsucc with h | h <;> simp [h]
    unfold parse
    rw [hcond]
    simp only [Bool.false_eq_true, if_false, List.mem_cons, List.mem_append]
    refine Or.inr (Or.inr ?_)
    exact List.mem_map.mpr ⟨l, List.mem_filter.mpr ⟨hl, by simp [hns]⟩, rfl⟩

/-- C2 witness: site `example.com`, exclusion string
`https://example.com/bot`; internal link `/a` is yielded (its URL does not
begin with the exclusion string), and `https://example.com/bot?x=1` is
never issued nor recorded in the empty-event run. -/
theorem C2_excluded_links_never_dispatched_or_recorded_witness :
    ((⟨"https://example.com/a"⟩ : Link)
        ∈ extract_links_allow ["example.com"]
          { request := { url := "https://example.com/", callback := Callback.parse,
                         origin := "start_https://example.com/" },
            url := "https://example.com/", status := 200, is_text := true,
            candidates := [⟨"https://example.com/a"⟩] })
    ∧ starts_with "https://example.com/bot?x=1" "https://example.com/bot" = true
    ∧ url_is_from_any_domain "https://example.com/bot?x=1" ["example.com"] = true
    ∧ (Effect.req { url := "https://example.com/a", callback := Callback.parse,
                    origin := urlpath "https://example.com/" }
          ∈ parse { start_urls := ["https://example.com/"],
                    search_domains := ["example.com"],
                    excluded_pattern := "https://example.com/bot" }
              { request := { url := "https://example.com/", callback := Callback.parse,
                             origin := "start_https://example.com/" },
                url := "https://example.com/", status := 200, is_text := true,
                candidates := [⟨"https://example.com/a"⟩] }
        ↔ starts_with "https://example.com/a" "https://example.com/bot" = false)
    ∧ ∀ e ∈ (run { start_urls := ["https://example.com/"],
                   search_domains := ["example.com"],
                   excluded_pattern := "https://example.com/bot" } []).log,
        mentions "https://example.com/bot?x=1" e = false :=
  ⟨by decide, by decide, by decide,
    (C2_excluded_links_never_dispatched_or_recorded
      { start_urls := ["https://example.com/"], search_domains := ["example.com"],
        excluded_pattern := "https://example.com/bot" }
      { request := { url := "https://example.com/", callback := Callback.parse,
                     origin := "start_https://example.com/" },
        url := "https://example.com/", status := 200, is_text := true,
        candidates := [⟨"https://example.com/a"⟩] }
      ⟨"https://example.com/a"⟩ (by decide) (Or.inl rfl)
      "https://example.com/bot?x=1" (by decide) (by decide) (by decide) []).1,
    (C2_excluded_links_never_dispatched_or_recorded
      { start_urls := ["https://example.com/"], search_domains := ["example.com"],
        excluded_pattern := "https://example.com/bot" }
      { request := { url := "https://example.com/", callback := Callback.parse,
                     origin := "start_https://example.com/" },
        url := "https://example.com/", status := 200, is_text := true,
        candidates := [⟨"https://example.com/a"⟩] }
      ⟨"https://example.com/a"⟩ (by decide) (Or.inl rfl)
      "https://example.com/bot?x=1" (by decide) (by decide) (by decide) []).2.2⟩

/-! ## C7: external links are fetch-only -/

/-- Projects an effect to the URL of a yielded `NO_CALLBACK` request. -/
def external_req_url : Effect → Option String
  | Effect.req r => if r.callback = Callback.NO_CALLBACK then some r.url else none
  | _ => none

theorem filterMap_const_none {α β : Type} (l : List α) :
    l.filterMap (fun _ => (none : Option β)) = [] := by
  induction l <;> simp_all

theorem filterMap_all_some {α β : Type} (g : α → β) (l : List α) :
    l.filterMap (fun a => some (g a)) = l.map g := by
  induction l <;> simp_all

theorem filterMap_external_req_url_no (l : List Link) (o : String) :
    (l.map (fun link =>
        Effect.req { url := link.url, callback := Callback.NO_CALLBACK,
                     origin := o })).filterMap external_req_url
      = l.map Link.url := by
  induction l with
  | nil => rfl
  | cons a t ih => simp [List.filterMap_cons, external_req_url, ih]

theorem filterMap_external_req_url_parse (l : List Link) (o : String) :
    (l.map (fun link =>
        Effect.req { url := link.url, callback := Callback.parse,
                     origin := o })).filterMap external_req_url
      = [] := by
  induction l with
  | nil => rfl
  | cons a t ih => simp [List.filterMap_cons, external_req_url, ih]

/-- A URL is a seed of the run or classifies internal. -/
def seedOrInternal (cfg : SpiderConfig) (v : String) : Prop :=
  v ∈ cfg.start_urls ∨ url_is_from_any_domain v cfg.search_domains = true

/-- Side condition on an effect for `VisitInv`: a yielded `parse`-callback
request targets a seed-or-internal URL, and a visit record is for a
seed-or-internal URL. -/
def VisitCond (cfg : SpiderConfig) (e : Effect) : Prop :=
  (∀ r, e = Effect.req r → r.callback = Callback.parse → seedOrInternal cfg r.url)
  ∧ ∀ v, e = Effect.visit v → seedOrInternal cfg v

/-- Visit invariant: every pending `parse`-callback request targets a
seed-or-internal URL, and every logged visit record is for one. -/
def VisitInv (cfg : SpiderConfig) (st : CrawlState) : Prop :=
  (∀ r ∈ st.pending, r.callback = Callback.parse → seedOrInternal cfg r.url)
  ∧ ∀ e ∈ st.log, ∀ v, e = Effect.visit v → seedOrInternal cfg v

theorem schedule_visitInv {cfg : SpiderConfig} {st : CrawlState} {r : Request}
    (hr : r.callback = Callback.parse → seedOrInternal cfg r.url)
    (h : VisitInv cfg st) : VisitInv cfg (schedule st r) := by
  obtain ⟨hp, hl⟩ := h
  unfold schedule
  split
  · exact ⟨hp, hl⟩
  · refine ⟨?_, hl⟩
    intro x hx
    rcases List.mem_append.mp hx with hx | hx
    · exact hp x hx
    · rcases List.mem_singleton.mp hx with rfl
      exact hr

theorem applyEffect_visitInv {cfg : SpiderConfig} {st : CrawlState} {e : Effect}
    (he : VisitCond cfg e) (h : VisitInv cfg st) :
    VisitInv cfg (applyEffect st e) := by
  obtain ⟨hp, hl⟩ := h
  cases e with
  | req r => exact schedule_visitInv (he.1 r rfl) ⟨hp, hl⟩
  | visit v =>
      refine ⟨hp, ?_⟩
      intro x hx v2 hv2
      rcases List.mem_append.mp hx with hx | hx
      · exact hl x hx v2 hv2
      · rcases List.mem_singleton.mp hx with rfl
        injection hv2 with h
        exact h ▸ he.2 v rfl
  | err l s o =>
      refine ⟨hp, ?_⟩
      intro x hx v2 hv2
      rcases List.mem_append.mp hx with hx | hx
      · exact hl x hx v2 hv2
      · rcases List.mem_singleton.mp hx with rfl
        simp at hv2

theorem deliver_visitCond {cfg : SpiderConfig} {r : Request}
    (hr : r.callback = Callback.parse → seedOrInternal cfg r.url)
    (out : Outcome) : ∀ e ∈ deliver cfg r out, VisitCond cfg e := by
  intro e he
  cases out with
  | failure k =>
      rcases mem_handle_error_shape (f := { request := r, kind := k }) he with ⟨s, rfl⟩
      exact ⟨fun r' h => by simp at h, fun v h => by simp at h⟩
  | success servedUrl status is_text candidates =>
      cases hcb : r.callback with
      | NO_CALLBACK =>
          simp [deliver, hcb, NO_CALLBACK] at he
      | parse =>
          simp only [deliver, hcb] at he
          have hsi : seedOrInternal cfg r.url := hr hcb
          rcases mem_parse_shape he with h1 | ⟨s, h2⟩ | ⟨l, _, ⟨hdom, h3⟩ | ⟨hdom, hskip, h3⟩⟩
          · subst h1
            refine ⟨fun r' h => by simp at h, fun v h => ?_⟩
            injection h with h
            exact h ▸ hsi
          · subst h2
            exact ⟨fun r' h => by simp at h, fun v h => by simp at h⟩
          · subst h3
            refine ⟨?_, fun v h => by simp at h⟩
            intro r' h hcall
            injection h with h
            rw [← h] at hcall
            simp at hcall
          · subst h3
            refine ⟨?_, fun v h => by simp at h⟩
            intro r' h _
            injection h with h
            rw [← h]
            exact Or.inr hdom

theorem step_visitInv (cfg : SpiderConfig) (st : CrawlState) (ev : Nat × Outcome)
    (h : VisitInv cfg st) : VisitInv cfg (step cfg st ev) := by
  unfold step
  split
  · exact h
  · rename_i r hr
    have hrp : r ∈ st.pending := List.get?_mem hr
    have hst' : VisitInv cfg { st with pending := st.pending.eraseIdx ev.1 } := by
      refine ⟨?_, h.2⟩
      intro x hx
      exact h.1 x ((List.eraseIdx_sublist _ _).subset hx)
    exact foldl_applyEffect_invariant
      (fun s e he hs => applyEffect_visitInv he hs) _ _
      (deliver_visitCond (h.1 r hrp) ev.2) hst'

theorem initState_visitInv (cfg : SpiderConfig) : VisitInv cfg (initState cfg) := by
  unfold initState
  refine foldl_schedule_invariant
    (P := fun r => r.callback = Callback.parse → seedOrInternal cfg r.url)
    (fun st r hp h => schedule_visitInv hp h) _ _ ?_ ⟨by simp, by simp⟩
  intro r hrm
  rcases List.mem_map.mp hrm with ⟨url, hurl, rfl⟩
  exact fun _ => Or.inl hurl

/-- C7: for every external link of a successfully parsed page, exactly one
request is yielded and its callback is `NO_CALLBACK` — the `NO_CALLBACK`
request URLs of `parse`'s output are exactly the `deny_domains` extraction,
in order; `NO_CALLBACK` does nothing with any response (no record, no link
extraction, no request); and over any whole crawl run every visit record's
URL was a seed or classified internal. -/
theorem C7_external_links_fetch_only (cfg : SpiderConfig) (rsp : Response)
    (hsucc : rsp.is_text = true ∨ rsp.status = 200) (rsp2 : Response)
    (events : List (Nat × Outcome)) :
    (parse cfg rsp).filterMap external_req_url
        = (extract_links_deny cfg.search_domains rsp).map Link.url
    ∧ NO_CALLBACK rsp2 = []
    ∧ ∀ e ∈ (run cfg events).log, ∀ v, e = Effect.visit v →
        v ∈ cfg.start_urls ∨ url_is_from_any_domain v cfg.search_domains = true := by
  refine ⟨?_, rfl, ?_⟩
  · have hcond : (!rsp.is_text && rsp.status != 200) = false := by
      rcases hsucc with h | h <;> simp [h]
    unfold parse
    rw [hcond]
    simp only [Bool.false_eq_true, if_false, List.filterMap_cons, external_req_url]
    rw [List.filterMap_append, filterMap_external_req_url_no,
      filterMap_external_req_url_parse, List.append_nil]
  · exact (foldl_invariant (step cfg) (fun s ev hs => step_visitInv cfg s ev hs)
      events _ (initState_visitInv cfg)).2

/-- C7 witness: a page with one external link `https://other.org/p` yields
exactly the one `NO_CALLBACK` request for it. -/
theorem C7_external_links_fetch_only_witness :
    (({ request := { url := "https://example.com/", callback := Callback.parse,
                     origin := "start_https://example.com/" },
        url := "https://example.com/", status := 200, is_text := true,
        candidates := [⟨"https://other.org/p"⟩] } : Response).is_text = true)
    ∧ (parse { start_urls := ["https://example.com/"],
               search_domains := ["example.com"],
               excluded_pattern := "https://example.com/bot" }
          { request := { url := "https://example.com/", callback := Callback.parse,
                         origin := "start_https://example.com/" },
            url := "https://example.com/", status := 200, is_text := true,
            candidates := [⟨"https://other.org/p"⟩] }).filterMap external_req_url
        = (extract_links_deny ["example.com"]
            { request := { url := "https://example.com/", callback := Callback.parse,
                           origin := "start_https://example.com/" },
              url := "https://example.com/", status := 200, is_text := true,
              candidates := [⟨"https://other.org/p"⟩] }).map Link.url :=
  ⟨rfl,
    (C7_external_links_fetch_only
      { start_urls := ["https://example.com/"], search_domains := ["example.com"],
        excluded_pattern := "https://example.com/bot" }
      { request := { url := "https://example.com/", callback := Callback.parse,
                     origin := "start_https://example.com/" },
        url := "https://example.com/", status := 200, is_text := true,
        candidates := [⟨"https://other.org/p"⟩] }
      (Or.inl rfl)
      { request := { url := "https://other.org/p", callback := Callback.NO_CALLBACK,
                     origin := "/" },
        url := "https://other.org/p", status := 200, is_text := true,
        candidates := [] }
      []).1⟩

end Crawler
